import Mathlib

/-!
Shallow embedding of `QgsBox3D` (src/src/core/geometry/qgsbox3d.cpp) and the
collaborators it uses, together with formal statements of the specification
claims about it.

Doubles are modelled exactly: a value is either NaN or an exact rational
(the idealisation ignores rounding and overflow, which no claim depends on).
IEEE comparison semantics (every comparison involving NaN is false) and the
C++ `std::min`/`std::max` selection rules are modelled faithfully.
-/

/-- Model of a C++ `double`: NaN or a finite value (exact rational). -/
inductive EDouble : Type where
  | nan : EDouble
  | fin : ℚ → EDouble
deriving DecidableEq, Repr

namespace EDouble

/-- `std::isnan`. -/
def isNan : EDouble → Bool
  | nan => true
  | fin _ => false

/-- IEEE `<`: false whenever an operand is NaN. -/
def elt : EDouble → EDouble → Bool
  | fin x, fin y => decide (x < y)
  | _, _ => false

/-- IEEE `<=`: false whenever an operand is NaN. -/
def ele : EDouble → EDouble → Bool
  | fin x, fin y => decide (x ≤ y)
  | _, _ => false

/-- IEEE `==`: false whenever an operand is NaN. -/
def eeq : EDouble → EDouble → Bool
  | fin x, fin y => decide (x = y)
  | _, _ => false

/-- IEEE `>`. -/
def egt (a b : EDouble) : Bool := elt b a

/-- Addition; NaN propagates. -/
def eadd : EDouble → EDouble → EDouble
  | fin x, fin y => fin (x + y)
  | _, _ => nan

/-- Subtraction; NaN propagates. -/
def esub : EDouble → EDouble → EDouble
  | fin x, fin y => fin (x - y)
  | _, _ => nan

/-- Multiplication; NaN propagates (in particular `NaN * 0 = NaN`). -/
def emul : EDouble → EDouble → EDouble
  | fin x, fin y => fin (x * y)
  | _, _ => nan

/-- C++ `std::min(a, b)`, i.e. `(b < a) ? b : a` with IEEE comparison. -/
def stdMin (a b : EDouble) : EDouble := if elt b a then b else a

/-- C++ `std::max(a, b)`, i.e. `(a < b) ? b : a` with IEEE comparison. -/
def stdMax (a b : EDouble) : EDouble := if elt a b then b else a

/-- Symmetric NaN-propagating minimum, used for the spec-modelled 2D
rectangle combinators (`max(min1, min2) <= min(max1, max2)` style formulas). -/
def smin : EDouble → EDouble → EDouble
  | fin x, fin y => fin (min x y)
  | _, _ => nan

/-- Symmetric NaN-propagating maximum. -/
def smax : EDouble → EDouble → EDouble
  | fin x, fin y => fin (max x y)
  | _, _ => nan

end EDouble

open EDouble

/-- `DBL_MAX` as an exact rational: `(2 - 2 ^ -52) * 2 ^ 1023`. -/
def dblMax : ℚ := 2 ^ 1024 - 2 ^ 971

/-- Default tolerance of the near-equality helper: `4 * DBL_EPSILON`,
written with `DBL_EPSILON = 2 ^ -52` as an explicit numeral. -/
def qgsEpsilon : ℚ := 4 / 4503599627370496

/-- Modelled from the spec: `qgsDoubleNear`, the "explicit epsilon-based
near-equality helper" (missing from src/). `a` and `b` are near when
`a - b` lies within the default tolerance; any comparison involving NaN is
false, per the spec's "NaN propagation rules in comparisons". -/
def qgsDoubleNear (a b : EDouble) : Bool :=
  match a, b with
  | EDouble.fin x, EDouble.fin y => decide (-qgsEpsilon ≤ x - y ∧ x - y ≤ qgsEpsilon)
  | _, _ => false

/-- The 2D rectangle collaborator (`QgsRectangle`, not under src/):
four bounds, each a double. -/
structure QgsRect : Type where
  xmin : EDouble
  ymin : EDouble
  xmax : EDouble
  ymax : EDouble
deriving DecidableEq, Repr

namespace QgsRect

/-- Modelled from the spec: the rectangle's "set to inverted-extreme"
operation — minima become `+DBL_MAX`, maxima become `-DBL_MAX`. -/
def setMinimal : QgsRect :=
  ⟨EDouble.fin dblMax, EDouble.fin dblMax, EDouble.fin (-dblMax), EDouble.fin (-dblMax)⟩

/-- Modelled from the spec: the rectangle's `normalize` "swaps min/max per
axis as needed so that min ≤ max"; written with the same
`std::min`/`std::max` idiom the box source uses for the z axis. -/
def normalize (r : QgsRect) : QgsRect :=
  ⟨stdMin r.xmin r.xmax, stdMin r.ymin r.ymax,
   stdMax r.xmin r.xmax, stdMax r.ymin r.ymax⟩

/-- Modelled from the spec: 2D intersection test — per axis the maximum of
the minima must not exceed the minimum of the maxima. -/
def intersects (r s : QgsRect) : Bool :=
  ele (smax r.xmin s.xmin) (smin r.xmax s.xmax) &&
  ele (smax r.ymin s.ymin) (smin r.ymax s.ymax)

/-- Modelled from the spec: 2D intersection — per axis the bounds are
`[max of minima, min of maxima]`, not normalised or validated ("an
empty/negative-volume result is a valid, representable output"). -/
def intersect (r s : QgsRect) : QgsRect :=
  ⟨smax r.xmin s.xmin, smax r.ymin s.ymin, smin r.xmax s.xmax, smin r.ymax s.ymax⟩

/-- Modelled from the spec: `combineExtentWith(x, y)` — 2D union with a
point, minima via `std::min`, maxima via `std::max`. -/
def combineExtentWith (r : QgsRect) (x y : EDouble) : QgsRect :=
  ⟨stdMin r.xmin x, stdMin r.ymin y, stdMax r.xmax x, stdMax r.ymax y⟩

/-- Modelled from the spec: the rectangle "reports empty" when an axis is
inverted or degenerate within tolerance (mirrors the box's own z rule
"zmax < zmin, or zmax ≈ zmin"). -/
def isEmpty (r : QgsRect) : Bool :=
  elt r.xmax r.xmin || qgsDoubleNear r.xmax r.xmin ||
  elt r.ymax r.ymin || qgsDoubleNear r.ymax r.ymin

/-- Modelled from the spec: rectangle equality is "approximate
(tolerance-based floating-point comparison)" on the four bounds. -/
def rectEq (r s : QgsRect) : Bool :=
  qgsDoubleNear r.xmin s.xmin && qgsDoubleNear r.ymin s.ymin &&
  qgsDoubleNear r.xmax s.xmax && qgsDoubleNear r.ymax s.ymax

/-- Modelled from the spec: rectangle width, `xmax - xmin`. -/
def width (r : QgsRect) : EDouble := esub r.xmax r.xmin

/-- Modelled from the spec: rectangle height, `ymax - ymin`. -/
def height (r : QgsRect) : EDouble := esub r.ymax r.ymin

end QgsRect

/-- `QgsBox3D`: a 2D rectangle plus explicit z bounds
(fields `mBounds2d`, `mZmin`, `mZmax`). -/
structure QgsBox3D : Type where
  bounds2d : QgsRect
  zmin : EDouble
  zmax : EDouble
deriving DecidableEq, Repr

/-- The query point type of `distanceTo` (`QVector3D`), idealised to exact
coordinates. -/
structure Vec3 : Type where
  x : EDouble
  y : EDouble
  z : EDouble
deriving DecidableEq, Repr

namespace QgsBox3D

/-- Construction from six scalars without normalisation, as used by
`QgsBox3D::intersect` (per the spec, `intersect` "does not normalize or
validate the result"). -/
def mk6 (xmin ymin zmin xmax ymax zmax : EDouble) : QgsBox3D :=
  ⟨⟨xmin, ymin, xmax, ymax⟩, zmin, zmax⟩

/-- Bound accessor `xMinimum`. -/
def xMinimum (b : QgsBox3D) : EDouble := b.bounds2d.xmin

/-- Bound accessor `yMinimum`. -/
def yMinimum (b : QgsBox3D) : EDouble := b.bounds2d.ymin

/-- Bound accessor `xMaximum`. -/
def xMaximum (b : QgsBox3D) : EDouble := b.bounds2d.xmax

/-- Bound accessor `yMaximum`. -/
def yMaximum (b : QgsBox3D) : EDouble := b.bounds2d.ymax

/-- Bound accessor `zMinimum`. -/
def zMinimum (b : QgsBox3D) : EDouble := b.zmin

/-- Bound accessor `zMaximum`. -/
def zMaximum (b : QgsBox3D) : EDouble := b.zmax

/-- `QgsBox3D::setMinimal`: delegate to the rectangle and set
`zmin = +DBL_MAX`, `zmax = -DBL_MAX`. -/
def setMinimal : QgsBox3D :=
  ⟨QgsRect.setMinimal, EDouble.fin dblMax, EDouble.fin (-dblMax)⟩

/-- `QgsBox3D::normalize`: normalise the rectangle, then
`minTmp = std::min(zmin, zmax); zmax = std::max(zmin, zmax); zmin = minTmp`. -/
def normalize (b : QgsBox3D) : QgsBox3D :=
  ⟨b.bounds2d.normalize, stdMin b.zmin b.zmax, stdMax b.zmin b.zmax⟩

/-- `QgsBox3D::intersect`: delegated 2D intersection,
`zMin = std::max(zmin, other.zmin)`, `zMax = std::min(zmax, other.zmax)`. -/
def intersect (b o : QgsBox3D) : QgsBox3D :=
  mk6 (b.bounds2d.intersect o.bounds2d).xmin (b.bounds2d.intersect o.bounds2d).ymin
      (stdMax b.zmin o.zmin)
      (b.bounds2d.intersect o.bounds2d).xmax (b.bounds2d.intersect o.bounds2d).ymax
      (stdMin b.zmax o.zmax)

/-- `QgsBox3D::is2d`:
`qgsDoubleNear(zmin, zmax) || (zmin > zmax) || isnan(zmin) || isnan(zmax)`. -/
def is2d (b : QgsBox3D) : Bool :=
  qgsDoubleNear b.zmin b.zmax || egt b.zmin b.zmax || b.zmin.isNan || b.zmax.isNan

/-- `QgsBox3D::intersects`: 2D rectangles must intersect; if either box is
2D the 2D test suffices; otherwise `z1 = (zmin > o.zmin ? zmin : o.zmin)`,
`z2 = (zmax < o.zmax ? zmax : o.zmax)` and the result is `z1 <= z2`. -/
def intersects (b o : QgsBox3D) : Bool :=
  if !(b.bounds2d.intersects o.bounds2d) then false
  else if o.is2d || b.is2d then true
  else ele (if egt b.zmin o.zmin then b.zmin else o.zmin)
           (if elt b.zmax o.zmax then b.zmax else o.zmax)

/-- `QgsBox3D::combineWith(x, y, z)`: 2D union with the point, then
`zmin = std::min(zmin, z)`, `zmax = std::max(zmax, z)`. -/
def combineWith (b : QgsBox3D) (x y z : EDouble) : QgsBox3D :=
  ⟨b.bounds2d.combineExtentWith x y, stdMin b.zmin z, stdMax b.zmax z⟩

/-- The per-axis gap of `QgsBox3D::distanceTo`:
`std::max(lo - c, std::max(0., c - hi))`. -/
def dGap (lo hi c : EDouble) : EDouble :=
  stdMax (esub lo c) (stdMax (EDouble.fin 0) (esub c hi))

/-- The quantity under the square root in `QgsBox3D::distanceTo`:
`dx² + dy²` on the 2D path (box is 2D-degenerate or the query z is NaN),
`dx² + dy² + dz²` otherwise. -/
def distSumSq (b : QgsBox3D) (p : Vec3) : EDouble :=
  let dx := dGap b.bounds2d.xmin b.bounds2d.xmax p.x
  let dy := dGap b.bounds2d.ymin b.bounds2d.ymax p.y
  if b.is2d || p.z.isNan then
    eadd (emul dx dx) (emul dy dy)
  else
    let dz := dGap b.zmin b.zmax p.z
    eadd (eadd (emul dx dx) (emul dy dy)) (emul dz dz)

/-- `QgsBox3D::distanceTo`: the Euclidean norm (`std::hypot`) of the axis
gaps; `none` models a NaN result. -/
noncomputable def distanceTo (b : QgsBox3D) (p : Vec3) : Option ℝ :=
  match b.distSumSq p with
  | EDouble.nan => none
  | EDouble.fin q => some (Real.sqrt (q : ℝ))

/-- `QgsBox3D::operator==`: tolerance equality of the rectangles and of
both z bounds. -/
def beq (b o : QgsBox3D) : Bool :=
  QgsRect.rectEq b.bounds2d o.bounds2d &&
  qgsDoubleNear b.zmin o.zmin && qgsDoubleNear b.zmax o.zmax

/-- `QgsBox3D::scale(scaleFactor, centerX, centerY, centerZ)`: every bound
becomes `center + (bound - center) * scaleFactor` on its axis. -/
def scale (b : QgsBox3D) (f cx cy cz : EDouble) : QgsBox3D :=
  ⟨⟨eadd cx (emul (esub b.bounds2d.xmin cx) f),
    eadd cy (emul (esub b.bounds2d.ymin cy) f),
    eadd cx (emul (esub b.bounds2d.xmax cx) f),
    eadd cy (emul (esub b.bounds2d.ymax cy) f)⟩,
   eadd cz (emul (esub b.zmin cz) f),
   eadd cz (emul (esub b.zmax cz) f)⟩

/-- `QgsBox3D::isNull`, translated exactly: the NaN branch tests
`isnan(xmin) && isnan(xmax) && isnan(ymin) && isnan(xmax) && isnan(zmin)
&& isnan(zmax)` (the `xMaximum()` double-check of the source is kept);
the sentinel branch tests all six bounds against `±DBL_MAX`. -/
def isNull (b : QgsBox3D) : Bool :=
  (b.bounds2d.xmin.isNan && b.bounds2d.xmax.isNan
     && b.bounds2d.ymin.isNan && b.bounds2d.xmax.isNan
     && b.zmin.isNan && b.zmax.isNan)
  ||
  (eeq b.bounds2d.xmin (EDouble.fin dblMax) && eeq b.bounds2d.ymin (EDouble.fin dblMax)
     && eeq b.zmin (EDouble.fin dblMax)
     && eeq b.bounds2d.xmax (EDouble.fin (-dblMax)) && eeq b.bounds2d.ymax (EDouble.fin (-dblMax))
     && eeq b.zmax (EDouble.fin (-dblMax)))

/-- `QgsBox3D::isEmpty`:
`zmax < zmin || qgsDoubleNear(zmax, zmin) || bounds2d.isEmpty()`. -/
def isEmpty (b : QgsBox3D) : Bool :=
  elt b.zmax b.zmin || qgsDoubleNear b.zmax b.zmin || b.bounds2d.isEmpty

/-- `QgsBox3D::width`, delegated to the rectangle. -/
def width (b : QgsBox3D) : EDouble := b.bounds2d.width

/-- `QgsBox3D::height`, delegated to the rectangle. -/
def height (b : QgsBox3D) : EDouble := b.bounds2d.height

end QgsBox3D

/-- The finite value carried by a double, `0` for NaN (used only where a
guard has already established finiteness). -/
def EDouble.toQ : EDouble → ℚ
  | EDouble.nan => 0
  | EDouble.fin q => q

/-- Round half away from zero, the tie rule used by the fixed-point
rendering model. -/
def roundHalfAway (r : ℚ) : ℤ :=
  if r < 0 then -(Int.floor (-r + 1 / 2)) else Int.floor (r + 1 / 2)

/-- Modelled from the spec: fixed-point decimal rendering of a finite double
at `p` decimal digits (the `'f'` format of the string formatter, which is
not under src/). -/
def fmtFixed (q : ℚ) (p : ℕ) : String :=
  let n : ℤ := roundHalfAway (q * 10 ^ p)
  let sgn : String := if q < 0 then "-" else ""
  let a : ℕ := n.natAbs
  let ip : ℕ := a / 10 ^ p
  let fp : ℕ := a % 10 ^ p
  if p = 0 then sgn ++ Nat.repr ip
  else
    let fs : String := Nat.repr fp
    sgn ++ Nat.repr ip ++ "." ++ String.mk (List.replicate (p - fs.length) '0') ++ fs

/-- Fixed-point rendering lifted to doubles; a NaN renders as `"nan"`. -/
def fmtFixedE : EDouble → ℕ → String
  | EDouble.nan, _ => "nan"
  | EDouble.fin q, p => fmtFixed q p

namespace QgsBox3D

/-- The adaptive-precision computation of `QgsBox3D::toString` as the claim
describes it: derived from the magnitude of the smaller of width and height
when the box is small enough, capped at 20 decimal digits, else 0.
`ceil(-log10 q) + 1` is written `-(Int.log 10 q) + 1`, which agrees with it
for every `q > 0`. -/
def adaptivePrecision (b : QgsBox3D) : ℤ :=
  if (elt b.width (EDouble.fin 10) || elt b.height (EDouble.fin 10)) &&
     (egt b.width (EDouble.fin 0) && egt b.height (EDouble.fin 0)) then
    min (-(Int.log 10 (stdMin b.width b.height).toQ) + 1) 20
  else 0

/-- `QgsBox3D::toString`: a negative precision is first replaced by the
adaptive precision (`ceil(-log10(min(width, height))) + 1`, clamped to 20,
when `(width < 10 || height < 10) && width > 0 && height > 0`, else 0);
then the box renders as `"Null"`, `"Empty"`, or the six bounds at that
precision in the `"%1,%2,%3 : %4,%5,%6"` layout. -/
def toString (b : QgsBox3D) (precision : ℤ) : String :=
  let prec : ℤ :=
    if precision < 0 then
      if (elt b.width (EDouble.fin 10) || elt b.height (EDouble.fin 10)) &&
         (egt b.width (EDouble.fin 0) && egt b.height (EDouble.fin 0)) then
        let p1 : ℤ := -(Int.log 10 (stdMin b.width b.height).toQ) + 1
        if p1 > 20 then 20 else p1
      else 0
    else precision
  if b.isNull then "Null"
  else if b.isEmpty then "Empty"
  else
    fmtFixedE b.bounds2d.xmin prec.toNat ++ "," ++ fmtFixedE b.bounds2d.ymin prec.toNat ++ ","
      ++ fmtFixedE b.zmin prec.toNat ++ " : " ++ fmtFixedE b.bounds2d.xmax prec.toNat ++ ","
      ++ fmtFixedE b.bounds2d.ymax prec.toNat ++ "," ++ fmtFixedE b.zmax prec.toNat

/-- State-passing rendering of the call `self.intersect(other)`: the method
body only reads the operands into locals and constructs the return value,
so the exit state of both operands is their entry state. -/
def intersectRun (self other : QgsBox3D) : QgsBox3D × QgsBox3D × QgsBox3D :=
  let intersect2d : QgsRect := self.bounds2d.intersect other.bounds2d
  let zMin : EDouble := stdMax self.zmin other.zmin
  let zMax : EDouble := stdMin self.zmax other.zmax
  (self, other, mk6 intersect2d.xmin intersect2d.ymin zMin intersect2d.xmax intersect2d.ymax zMax)

end QgsBox3D

/-- The null characterisation exactly as claim C1 words it: all six bounds
NaN, or the sentinel-inverted state on all three axes. -/
def isNullClaim (b : QgsBox3D) : Prop :=
  (b.bounds2d.xmin = EDouble.nan ∧ b.bounds2d.xmax = EDouble.nan ∧
   b.bounds2d.ymin = EDouble.nan ∧ b.bounds2d.ymax = EDouble.nan ∧
   b.zmin = EDouble.nan ∧ b.zmax = EDouble.nan) ∨
  (b.bounds2d.xmin = EDouble.fin dblMax ∧ b.bounds2d.ymin = EDouble.fin dblMax ∧
   b.zmin = EDouble.fin dblMax ∧
   b.bounds2d.xmax = EDouble.fin (-dblMax) ∧ b.bounds2d.ymax = EDouble.fin (-dblMax) ∧
   b.zmax = EDouble.fin (-dblMax))

/-- The null characterisation the source actually implements: the NaN branch
constrains `xmin`, `xmax`, `ymin`, `zmin` and `zmax` but never `ymax`
(the source checks `xMaximum()` twice). -/
def isNullAmended (b : QgsBox3D) : Prop :=
  (b.bounds2d.xmin = EDouble.nan ∧ b.bounds2d.xmax = EDouble.nan ∧
   b.bounds2d.ymin = EDouble.nan ∧
   b.zmin = EDouble.nan ∧ b.zmax = EDouble.nan) ∨
  (b.bounds2d.xmin = EDouble.fin dblMax ∧ b.bounds2d.ymin = EDouble.fin dblMax ∧
   b.zmin = EDouble.fin dblMax ∧
   b.bounds2d.xmax = EDouble.fin (-dblMax) ∧ b.bounds2d.ymax = EDouble.fin (-dblMax) ∧
   b.zmax = EDouble.fin (-dblMax))

/-- The per-axis distance gap exactly as the spec words it:
`max(0, max(lowerBound - coord, coord - upperBound))`. -/
def specGap (lo hi c : ℚ) : ℚ := max 0 (max (lo - c) (c - hi))

/-- Fold `combineWith` over a sequence of finite points, the accumulation
idiom the spec pairs with `setMinimal`. -/
def foldCombine (b0 : QgsBox3D) (ps : List (ℚ × ℚ × ℚ)) : QgsBox3D :=
  ps.foldl (fun b p => b.combineWith (EDouble.fin p.1) (EDouble.fin p.2.1) (EDouble.fin p.2.2)) b0

/-- A box whose `ymax` is finite while the five bounds the source's NaN
branch actually tests are all NaN. -/
def boxFiveNaN : QgsBox3D :=
  ⟨⟨EDouble.nan, EDouble.nan, EDouble.nan, EDouble.fin 5⟩, EDouble.nan, EDouble.nan⟩

/-- The exact-hull property claim C2 asserts of the accumulated box: every
bound is finite and equals the least (respectively greatest) coordinate of
the point sequence on its axis. -/
def IsExactHull (B : QgsBox3D) (ps : List (ℚ × ℚ × ℚ)) : Prop :=
  ∃ mx my mz Mx My Mz : ℚ,
    B = ⟨⟨EDouble.fin mx, EDouble.fin my, EDouble.fin Mx, EDouble.fin My⟩,
         EDouble.fin mz, EDouble.fin Mz⟩ ∧
    ((∃ p ∈ ps, p.1 = mx) ∧ ∀ p ∈ ps, mx ≤ p.1) ∧
    ((∃ p ∈ ps, p.2.1 = my) ∧ ∀ p ∈ ps, my ≤ p.2.1) ∧
    ((∃ p ∈ ps, p.2.2 = mz) ∧ ∀ p ∈ ps, mz ≤ p.2.2) ∧
    ((∃ p ∈ ps, p.1 = Mx) ∧ ∀ p ∈ ps, p.1 ≤ Mx) ∧
    ((∃ p ∈ ps, p.2.1 = My) ∧ ∀ p ∈ ps, p.2.1 ≤ My) ∧
    ((∃ p ∈ ps, p.2.2 = Mz) ∧ ∀ p ∈ ps, p.2.2 ≤ Mz)

/-- A box with finite x/y bounds whose `zmin` is NaN. -/
def boxNanZ : QgsBox3D :=
  ⟨⟨EDouble.fin 0, EDouble.fin 0, EDouble.fin 1, EDouble.fin 1⟩, EDouble.nan, EDouble.fin 5⟩

/-- A box whose `xmin` is NaN and whose other bounds are finite. -/
def boxNanXmin : QgsBox3D :=
  ⟨⟨EDouble.nan, EDouble.fin 0, EDouble.fin 1, EDouble.fin 1⟩, EDouble.fin 0, EDouble.fin 1⟩

/-- A box like `(0, 0, NaN, 10, 10, 10)`: finite except for a NaN `zmin`. -/
def boxNanZmin : QgsBox3D :=
  QgsBox3D.mk6 (EDouble.fin 0) (EDouble.fin 0) EDouble.nan
    (EDouble.fin 10) (EDouble.fin 10) (EDouble.fin 10)

/-- The finite box `(0, 0, 5, 10, 10, 10)`. -/
def boxFinite5 : QgsBox3D :=
  QgsBox3D.mk6 (EDouble.fin 0) (EDouble.fin 0) (EDouble.fin 5)
    (EDouble.fin 10) (EDouble.fin 10) (EDouble.fin 10)

/-- The example box `(0, 0, 0, 10, 10, 10)` of the spec. -/
def box10 : QgsBox3D :=
  QgsBox3D.mk6 (EDouble.fin 0) (EDouble.fin 0) (EDouble.fin 0)
    (EDouble.fin 10) (EDouble.fin 10) (EDouble.fin 10)

/-- The precision `toString` actually uses: the argument itself when
non-negative, otherwise the adaptive precision. -/
def QgsBox3D.usedPrecision (b : QgsBox3D) (precision : ℤ) : ℤ :=
  if precision < 0 then QgsBox3D.adaptivePrecision b else precision

namespace EDouble

lemma isNan_eq_true_iff (e : EDouble) : e.isNan = true ↔ e = EDouble.nan := by
  cases e <;> simp [isNan]

lemma eeq_fin_true_iff (e : EDouble) (c : ℚ) : eeq e (EDouble.fin c) = true ↔ e = EDouble.fin c := by
  cases e <;> simp [eeq]

lemma exists_fin_of_ne_nan {e : EDouble} (h : e ≠ EDouble.nan) : ∃ x : ℚ, e = EDouble.fin x := by
  cases e with
  | nan => exact absurd rfl h
  | fin x => exact ⟨x, rfl⟩

lemma stdMin_fin (a x : ℚ) : stdMin (fin a) (fin x) = fin (min a x) := by
  rcases lt_or_le x a with h | h
  · simp [stdMin, elt, h, min_eq_right h.le]
  · simp [stdMin, elt, not_lt.2 h, min_eq_left h]

lemma stdMax_fin (a x : ℚ) : stdMax (fin a) (fin x) = fin (max a x) := by
  rcases lt_or_le a x with h | h
  · simp [stdMax, elt, h, max_eq_right h.le]
  · simp [stdMax, elt, not_lt.2 h, max_eq_left h]

lemma smin_comm (a b : EDouble) : smin a b = smin b a := by
  cases a <;> cases b <;> simp [smin, min_comm]

lemma smax_comm (a b : EDouble) : smax a b = smax b a := by
  cases a <;> cases b <;> simp [smax, max_comm]

lemma normAxis_idem_min (a b : EDouble) :
    stdMin (stdMin a b) (stdMax a b) = stdMin a b := by
  cases a with
  | nan => cases b <;> simp [stdMin, stdMax, elt]
  | fin x =>
    cases b with
    | nan => simp [stdMin, stdMax, elt]
    | fin y =>
      rw [stdMin_fin, stdMax_fin, stdMin_fin, min_eq_left min_le_max]

lemma normAxis_idem_max (a b : EDouble) :
    stdMax (stdMin a b) (stdMax a b) = stdMax a b := by
  cases a with
  | nan => cases b <;> simp [stdMin, stdMax, elt]
  | fin x =>
    cases b with
    | nan => simp [stdMin, stdMax, elt]
    | fin y =>
      rw [stdMin_fin, stdMax_fin, stdMax_fin, max_eq_right min_le_max]

lemma normAxis_ordered {a b : EDouble} (ha : a ≠ EDouble.nan) (hb : b ≠ EDouble.nan) :
    ele (stdMin a b) (stdMax a b) = true := by
  obtain ⟨x, hx⟩ := exists_fin_of_ne_nan ha
  obtain ⟨y, hy⟩ := exists_fin_of_ne_nan hb
  subst hx hy
  rw [stdMin_fin, stdMax_fin]
  simp [ele, min_le_max]

end EDouble

lemma qgsDoubleNear_self_fin (q : ℚ) :
    qgsDoubleNear (EDouble.fin q) (EDouble.fin q) = true := by
  simp only [qgsDoubleNear, sub_self, decide_eq_true_eq]
  constructor <;> norm_num [qgsEpsilon]

/-- C1 counterexample: on the box whose `ymax` is 5 and whose other five
bounds are NaN, the source's `isNull` returns true, yet the claimed
characterisation (all six bounds NaN, or the full sentinel state) rejects
the box — the NaN branch of the source never tests `ymax`. -/
theorem isNull_claim_counterexample :
    QgsBox3D.isNull boxFiveNaN = true ∧ ¬ isNullClaim boxFiveNaN := by
  constructor
  · decide
  · simp only [isNullClaim]
    decide

/-- C1 (amended): `isNull` returns true iff the five bounds the source
tests — `xmin`, `xmax`, `ymin`, `zmin`, `zmax`, with `ymax` unconstrained —
are all NaN, or the box is in the sentinel-inverted state with every
minimum `+DBL_MAX` and every maximum `-DBL_MAX`. -/
theorem isNull_iff_fiveNaN_or_sentinel (b : QgsBox3D) :
    QgsBox3D.isNull b = true ↔ isNullAmended b := by
  simp only [QgsBox3D.isNull, isNullAmended, Bool.or_eq_true, Bool.and_eq_true,
    EDouble.isNan_eq_true_iff, EDouble.eeq_fin_true_iff]
  tauto

/-- C9: `normalize` applied to the `setMinimal` sentinel box swaps every
axis, yielding minima `-DBL_MAX` and maxima `+DBL_MAX`; the result is no
longer null — the all-encompassing extent, not "no extent recorded yet". -/
theorem normalize_setMinimal_not_null :
    QgsBox3D.normalize QgsBox3D.setMinimal =
      ⟨⟨EDouble.fin (-dblMax), EDouble.fin (-dblMax), EDouble.fin dblMax, EDouble.fin dblMax⟩,
       EDouble.fin (-dblMax), EDouble.fin dblMax⟩ ∧
    QgsBox3D.isNull (QgsBox3D.normalize QgsBox3D.setMinimal) = false ∧
    QgsBox3D.isNull QgsBox3D.setMinimal = true := by
  have hM : (-dblMax) ≤ dblMax := by norm_num [dblMax]
  have hne2 : (-dblMax) ≠ dblMax := by norm_num [dblMax]
  have h1 : QgsBox3D.normalize QgsBox3D.setMinimal =
      ⟨⟨EDouble.fin (-dblMax), EDouble.fin (-dblMax), EDouble.fin dblMax, EDouble.fin dblMax⟩,
       EDouble.fin (-dblMax), EDouble.fin dblMax⟩ := by
    simp [QgsBox3D.normalize, QgsBox3D.setMinimal, QgsRect.setMinimal, QgsRect.normalize,
      EDouble.stdMin_fin, EDouble.stdMax_fin, min_eq_right hM, max_eq_left hM]
  refine ⟨h1, ?_, ?_⟩
  · rw [h1]
    simp [QgsBox3D.isNull, EDouble.eeq, EDouble.isNan, hne2]
  · simp [QgsBox3D.isNull, QgsBox3D.setMinimal, QgsRect.setMinimal, EDouble.eeq, EDouble.isNan]

lemma foldl_min_le_init (l : List ℚ) (a : ℚ) : l.foldl min a ≤ a := by
  induction l generalizing a with
  | nil => simp
  | cons x xs ih => exact le_trans (ih (min a x)) (min_le_left a x)

lemma foldl_min_le_mem (l : List ℚ) (a x : ℚ) (hx : x ∈ l) : l.foldl min a ≤ x := by
  induction l generalizing a with
  | nil => cases hx
  | cons y ys ih =>
    rcases List.mem_cons.1 hx with h | h
    · subst h
      exact le_trans (foldl_min_le_init ys (min a x)) (min_le_right a x)
    · exact ih (min a y) h

lemma foldl_min_eq_init_or_mem (l : List ℚ) (a : ℚ) :
    l.foldl min a = a ∨ l.foldl min a ∈ l := by
  induction l generalizing a with
  | nil => exact Or.inl rfl
  | cons x xs ih =>
    rw [List.foldl_cons]
    rcases ih (min a x) with h | h
    · rcases le_total a x with hax | hxa
      · exact Or.inl (by rw [h, min_eq_left hax])
      · exact Or.inr (by rw [h, min_eq_right hxa]; exact List.mem_cons_self x xs)
    · exact Or.inr (List.mem_cons_of_mem x h)

lemma foldl_max_init_le (l : List ℚ) (a : ℚ) : a ≤ l.foldl max a := by
  induction l generalizing a with
  | nil => simp
  | cons x xs ih => exact le_trans (le_max_left a x) (ih (max a x))

lemma foldl_max_mem_le (l : List ℚ) (a x : ℚ) (hx : x ∈ l) : x ≤ l.foldl max a := by
  induction l generalizing a with
  | nil => cases hx
  | cons y ys ih =>
    rcases List.mem_cons.1 hx with h | h
    · subst h
      exact le_trans (le_max_right a x) (foldl_max_init_le ys (max a x))
    · exact ih (max a y) h

lemma foldl_max_eq_init_or_mem (l : List ℚ) (a : ℚ) :
    l.foldl max a = a ∨ l.foldl max a ∈ l := by
  induction l generalizing a with
  | nil => exact Or.inl rfl
  | cons x xs ih =>
    rw [List.foldl_cons]
    rcases ih (max a x) with h | h
    · rcases le_total x a with hxa | hax
      · exact Or.inl (by rw [h, max_eq_left hxa])
      · exact Or.inr (by rw [h, max_eq_right hax]; exact List.mem_cons_self x xs)
    · exact Or.inr (List.mem_cons_of_mem x h)

lemma foldl_min_perm {l m : List ℚ} (h : l.Perm m) : ∀ a : ℚ, l.foldl min a = m.foldl min a := by
  induction h with
  | nil => intro a; rfl
  | cons x _ ih => intro a; rw [List.foldl_cons, List.foldl_cons, ih]
  | swap x y l => intro a; rw [List.foldl_cons, List.foldl_cons, List.foldl_cons, List.foldl_cons,
      min_right_comm]
  | trans _ _ ih1 ih2 => intro a; rw [ih1, ih2]

lemma foldl_max_perm {l m : List ℚ} (h : l.Perm m) : ∀ a : ℚ, l.foldl max a = m.foldl max a := by
  induction h with
  | nil => intro a; rfl
  | cons x _ ih => intro a; rw [List.foldl_cons, List.foldl_cons, ih]
  | swap x y l => intro a; rw [List.foldl_cons, List.foldl_cons, List.foldl_cons, List.foldl_cons,
      max_assoc, max_assoc, max_comm y x]
  | trans _ _ ih1 ih2 => intro a; rw [ih1, ih2]

lemma combineWith_fin (x0 y0 X0 Y0 z0 Z0 x y z : ℚ) :
    QgsBox3D.combineWith
      ⟨⟨EDouble.fin x0, EDouble.fin y0, EDouble.fin X0, EDouble.fin Y0⟩, EDouble.fin z0, EDouble.fin Z0⟩
      (EDouble.fin x) (EDouble.fin y) (EDouble.fin z) =
    ⟨⟨EDouble.fin (min x0 x), EDouble.fin (min y0 y), EDouble.fin (max X0 x), EDouble.fin (max Y0 y)⟩,
     EDouble.fin (min z0 z), EDouble.fin (max Z0 z)⟩ := by
  simp [QgsBox3D.combineWith, QgsRect.combineExtentWith, EDouble.stdMin_fin, EDouble.stdMax_fin]

lemma foldCombine_cons (b0 : QgsBox3D) (p : ℚ × ℚ × ℚ) (ps : List (ℚ × ℚ × ℚ)) :
    foldCombine b0 (p :: ps) =
      foldCombine (b0.combineWith (EDouble.fin p.1) (EDouble.fin p.2.1) (EDouble.fin p.2.2)) ps := rfl

lemma foldCombine_bounds (ps : List (ℚ × ℚ × ℚ)) (x0 y0 X0 Y0 z0 Z0 : ℚ) :
    foldCombine ⟨⟨EDouble.fin x0, EDouble.fin y0, EDouble.fin X0, EDouble.fin Y0⟩,
        EDouble.fin z0, EDouble.fin Z0⟩ ps =
    ⟨⟨EDouble.fin (ps.foldl (fun a p => min a p.1) x0),
      EDouble.fin (ps.foldl (fun a p => min a p.2.1) y0),
      EDouble.fin (ps.foldl (fun a p => max a p.1) X0),
      EDouble.fin (ps.foldl (fun a p => max a p.2.1) Y0)⟩,
     EDouble.fin (ps.foldl (fun a p => min a p.2.2) z0),
     EDouble.fin (ps.foldl (fun a p => max a p.2.2) Z0)⟩ := by
  induction ps generalizing x0 y0 X0 Y0 z0 Z0 with
  | nil => rfl
  | cons p ps ih =>
    rw [foldCombine_cons, combineWith_fin, ih]
    rfl

lemma foldl_min_exact (l : List ℚ) (hl : l ≠ []) (hb : ∀ x ∈ l, x ≤ dblMax) :
    l.foldl min dblMax ∈ l ∧ ∀ x ∈ l, l.foldl min dblMax ≤ x := by
  refine ⟨?_, fun x hx => foldl_min_le_mem l dblMax x hx⟩
  rcases foldl_min_eq_init_or_mem l dblMax with h | h
  · obtain ⟨x, hx⟩ := List.exists_mem_of_ne_nil l hl
    have h1 : dblMax ≤ x := h ▸ foldl_min_le_mem l dblMax x hx
    have h2 : x = dblMax := le_antisymm (hb x hx) h1
    rw [h, ← h2]
    exact hx
  · exact h

lemma foldl_max_exact (l : List ℚ) (hl : l ≠ []) (hb : ∀ x ∈ l, -dblMax ≤ x) :
    l.foldl max (-dblMax) ∈ l ∧ ∀ x ∈ l, x ≤ l.foldl max (-dblMax) := by
  refine ⟨?_, fun x hx => foldl_max_mem_le l (-dblMax) x hx⟩
  rcases foldl_max_eq_init_or_mem l (-dblMax) with h | h
  · obtain ⟨x, hx⟩ := List.exists_mem_of_ne_nil l hl
    have h1 : x ≤ -dblMax := h ▸ foldl_max_mem_le l (-dblMax) x hx
    have h2 : x = -dblMax := le_antisymm h1 (hb x hx)
    rw [h, ← h2]
    exact hx
  · exact h

lemma coord_min_exact (ps : List (ℚ × ℚ × ℚ)) (f : ℚ × ℚ × ℚ → ℚ) (hne : ps ≠ [])
    (hb : ∀ p ∈ ps, f p ≤ dblMax) :
    (∃ p ∈ ps, f p = ps.foldl (fun a p => min a (f p)) dblMax) ∧
    ∀ p ∈ ps, ps.foldl (fun a p => min a (f p)) dblMax ≤ f p := by
  have hmap : ps.map f ≠ [] := by simpa using hne
  have hb2 : ∀ x ∈ ps.map f, x ≤ dblMax := by
    intro x hx
    obtain ⟨p, hp, rfl⟩ := List.mem_map.1 hx
    exact hb p hp
  have key := foldl_min_exact (ps.map f) hmap hb2
  rw [List.foldl_map] at key
  exact ⟨List.mem_map.1 key.1, fun p hp => key.2 (f p) (List.mem_map_of_mem f hp)⟩

lemma coord_max_exact (ps : List (ℚ × ℚ × ℚ)) (f : ℚ × ℚ × ℚ → ℚ) (hne : ps ≠ [])
    (hb : ∀ p ∈ ps, -dblMax ≤ f p) :
    (∃ p ∈ ps, f p = ps.foldl (fun a p => max a (f p)) (-dblMax)) ∧
    ∀ p ∈ ps, f p ≤ ps.foldl (fun a p => max a (f p)) (-dblMax) := by
  have hmap : ps.map f ≠ [] := by simpa using hne
  have hb2 : ∀ x ∈ ps.map f, -dblMax ≤ x := by
    intro x hx
    obtain ⟨p, hp, rfl⟩ := List.mem_map.1 hx
    exact hb p hp
  have key := foldl_max_exact (ps.map f) hmap hb2
  rw [List.foldl_map] at key
  exact ⟨List.mem_map.1 key.1, fun p hp => key.2 (f p) (List.mem_map_of_mem f hp)⟩

lemma foldl_min_coord_perm {ps qs : List (ℚ × ℚ × ℚ)} (h : ps.Perm qs)
    (f : ℚ × ℚ × ℚ → ℚ) (a : ℚ) :
    qs.foldl (fun b p => min b (f p)) a = ps.foldl (fun b p => min b (f p)) a := by
  rw [← List.foldl_map f min qs a, ← List.foldl_map f min ps a]
  exact foldl_min_perm ((h.map f).symm) a

lemma foldl_max_coord_perm {ps qs : List (ℚ × ℚ × ℚ)} (h : ps.Perm qs)
    (f : ℚ × ℚ × ℚ → ℚ) (a : ℚ) :
    qs.foldl (fun b p => max b (f p)) a = ps.foldl (fun b p => max b (f p)) a := by
  rw [← List.foldl_map f max qs a, ← List.foldl_map f max ps a]
  exact foldl_max_perm ((h.map f).symm) a

/-- C2: starting from the box reset by `setMinimal` and folding
`combineWith` over any non-empty finite sequence of points with finite
coordinates, the resulting bounds are exactly the coordinate-wise minima
and maxima of the sequence, and the accumulated box does not depend on the
order of the points. -/
theorem setMinimal_combineWith_exact_hull (ps : List (ℚ × ℚ × ℚ)) (hne : ps ≠ [])
    (hb : ∀ p ∈ ps, |p.1| ≤ dblMax ∧ |p.2.1| ≤ dblMax ∧ |p.2.2| ≤ dblMax) :
    IsExactHull (foldCombine QgsBox3D.setMinimal ps) ps ∧
    ∀ qs : List (ℚ × ℚ × ℚ), ps.Perm qs →
      foldCombine QgsBox3D.setMinimal qs = foldCombine QgsBox3D.setMinimal ps := by
  have hsm : QgsBox3D.setMinimal =
      (⟨⟨EDouble.fin dblMax, EDouble.fin dblMax, EDouble.fin (-dblMax), EDouble.fin (-dblMax)⟩,
        EDouble.fin dblMax, EDouble.fin (-dblMax)⟩ : QgsBox3D) := rfl
  constructor
  · rw [hsm, foldCombine_bounds]
    refine ⟨_, _, _, _, _, _, rfl, ?_, ?_, ?_, ?_, ?_, ?_⟩
    · exact coord_min_exact ps (fun p => p.1) hne (fun p hp => (abs_le.1 (hb p hp).1).2)
    · exact coord_min_exact ps (fun p => p.2.1) hne (fun p hp => (abs_le.1 (hb p hp).2.1).2)
    · exact coord_min_exact ps (fun p => p.2.2) hne (fun p hp => (abs_le.1 (hb p hp).2.2).2)
    · exact coord_max_exact ps (fun p => p.1) hne (fun p hp => (abs_le.1 (hb p hp).1).1)
    · exact coord_max_exact ps (fun p => p.2.1) hne (fun p hp => (abs_le.1 (hb p hp).2.1).1)
    · exact coord_max_exact ps (fun p => p.2.2) hne (fun p hp => (abs_le.1 (hb p hp).2.2).1)
  · intro qs hperm
    rw [hsm, foldCombine_bounds, foldCombine_bounds]
    simp only [QgsBox3D.mk.injEq, QgsRect.mk.injEq, EDouble.fin.injEq]
    refine ⟨⟨?_, ?_, ?_, ?_⟩, ?_, ?_⟩
    · exact foldl_min_coord_perm hperm (fun p => p.1) dblMax
    · exact foldl_min_coord_perm hperm (fun p => p.2.1) dblMax
    · exact foldl_max_coord_perm hperm (fun p => p.1) (-dblMax)
    · exact foldl_max_coord_perm hperm (fun p => p.2.1) (-dblMax)
    · exact foldl_min_coord_perm hperm (fun p => p.2.2) dblMax
    · exact foldl_max_coord_perm hperm (fun p => p.2.2) (-dblMax)

/-- C2 witness: the exact-hull property holds concretely for the two-point
sequence `(1, 2, 3), (0, 5, -2)`. -/
theorem setMinimal_combineWith_exact_hull_witness :
    IsExactHull (foldCombine QgsBox3D.setMinimal [((1 : ℚ), (2 : ℚ), (3 : ℚ)), ((0 : ℚ), (5 : ℚ), (-2 : ℚ))])
      [((1 : ℚ), (2 : ℚ), (3 : ℚ)), ((0 : ℚ), (5 : ℚ), (-2 : ℚ))] :=
  (setMinimal_combineWith_exact_hull
    [((1 : ℚ), (2 : ℚ), (3 : ℚ)), ((0 : ℚ), (5 : ℚ), (-2 : ℚ))]
    (by simp)
    (by
      intro p hp
      rcases List.mem_cons.1 hp with h | h
      · subst h
        refine ⟨?_, ?_, ?_⟩ <;> · rw [abs_le]; constructor <;> norm_num [dblMax]
      · rcases List.mem_cons.1 h with h2 | h2
        · subst h2
          refine ⟨?_, ?_, ?_⟩ <;> · rw [abs_le]; constructor <;> norm_num [dblMax]
        · cases h2)).1

/-- C4 counterexample: on a box whose `zmin` is NaN, `normalize` turns both
z bounds into NaN (`std::min`/`std::max` with a NaN first argument), and the
claimed post-condition `zmin ≤ zmax` is false under IEEE comparison, so the
claim fails as stated even though idempotence holds. -/
theorem normalize_ordered_counterexample :
    ¬ (QgsBox3D.normalize (QgsBox3D.normalize boxNanZ) = QgsBox3D.normalize boxNanZ ∧
       ele (QgsBox3D.normalize boxNanZ).zmin (QgsBox3D.normalize boxNanZ).zmax = true) := by
  decide

/-- C4 (amended): `normalize` is idempotent on every box, and after
`normalize` the ordering `min ≤ max` holds independently on each axis whose
two bounds are non-NaN. -/
theorem normalize_idem_and_ordered (b : QgsBox3D) :
    QgsBox3D.normalize (QgsBox3D.normalize b) = QgsBox3D.normalize b ∧
    (b.bounds2d.xmin ≠ EDouble.nan → b.bounds2d.xmax ≠ EDouble.nan →
      ele (QgsBox3D.normalize b).bounds2d.xmin (QgsBox3D.normalize b).bounds2d.xmax = true) ∧
    (b.bounds2d.ymin ≠ EDouble.nan → b.bounds2d.ymax ≠ EDouble.nan →
      ele (QgsBox3D.normalize b).bounds2d.ymin (QgsBox3D.normalize b).bounds2d.ymax = true) ∧
    (b.zmin ≠ EDouble.nan → b.zmax ≠ EDouble.nan →
      ele (QgsBox3D.normalize b).zmin (QgsBox3D.normalize b).zmax = true) := by
  obtain ⟨⟨x1, y1, x2, y2⟩, z1, z2⟩ := b
  refine ⟨?_, ?_, ?_, ?_⟩
  · simp [QgsBox3D.normalize, QgsRect.normalize, EDouble.normAxis_idem_min,
      EDouble.normAxis_idem_max]
  · exact fun h1 h2 => EDouble.normAxis_ordered h1 h2
  · exact fun h1 h2 => EDouble.normAxis_ordered h1 h2
  · exact fun h1 h2 => EDouble.normAxis_ordered h1 h2

/-- C4 witness: on the box `(0, 0, 5, 1, 1, 2)` the z bounds are non-NaN
and after `normalize` the ordering holds on the z axis. -/
theorem normalize_idem_and_ordered_witness :
    ele (QgsBox3D.normalize ⟨⟨EDouble.fin 0, EDouble.fin 0, EDouble.fin 1, EDouble.fin 1⟩,
          EDouble.fin 5, EDouble.fin 2⟩).zmin
        (QgsBox3D.normalize ⟨⟨EDouble.fin 0, EDouble.fin 0, EDouble.fin 1, EDouble.fin 1⟩,
          EDouble.fin 5, EDouble.fin 2⟩).zmax = true :=
  (normalize_idem_and_ordered
      ⟨⟨EDouble.fin 0, EDouble.fin 0, EDouble.fin 1, EDouble.fin 1⟩,
        EDouble.fin 5, EDouble.fin 2⟩).2.2.2 (by decide) (by decide)

lemma scale_one_bound (c : ℚ) (e : EDouble) :
    eadd (EDouble.fin c) (emul (esub e (EDouble.fin c)) (EDouble.fin 1)) = e := by
  cases e with
  | nan => rfl
  | fin x =>
    show EDouble.fin (c + (x - c) * 1) = EDouble.fin x
    congr 1
    ring

lemma scale_zero_bound (c x : ℚ) :
    eadd (EDouble.fin c) (emul (esub (EDouble.fin x) (EDouble.fin c)) (EDouble.fin 0)) =
      EDouble.fin c := by
  show EDouble.fin (c + (x - c) * 0) = EDouble.fin c
  congr 1
  ring

/-- C5 counterexample: scaling the box whose `xmin` is NaN by factor 0 about
the centre `(2, 2, 2)` does not collapse the box to that centre — the NaN
bound stays NaN because `NaN * 0 = NaN` — so the claim fails as stated. -/
theorem scale_zero_counterexample :
    QgsBox3D.scale boxNanXmin (EDouble.fin 0) (EDouble.fin 2) (EDouble.fin 2) (EDouble.fin 2) ≠
      ⟨⟨EDouble.fin 2, EDouble.fin 2, EDouble.fin 2, EDouble.fin 2⟩,
        EDouble.fin 2, EDouble.fin 2⟩ := by
  decide

/-- C5 (amended): for every box and every centre with finite coordinates,
`scale(1.0, center)` leaves all six bounds unchanged; and when additionally
all six bounds are non-NaN, `scale(0.0, center)` collapses the box to the
single point equal to the centre. -/
theorem scale_one_and_zero (b : QgsBox3D) (cx cy cz : ℚ) :
    QgsBox3D.scale b (EDouble.fin 1) (EDouble.fin cx) (EDouble.fin cy) (EDouble.fin cz) = b ∧
    (b.bounds2d.xmin ≠ EDouble.nan → b.bounds2d.ymin ≠ EDouble.nan →
     b.bounds2d.xmax ≠ EDouble.nan → b.bounds2d.ymax ≠ EDouble.nan →
     b.zmin ≠ EDouble.nan → b.zmax ≠ EDouble.nan →
      QgsBox3D.scale b (EDouble.fin 0) (EDouble.fin cx) (EDouble.fin cy) (EDouble.fin cz) =
        ⟨⟨EDouble.fin cx, EDouble.fin cy, EDouble.fin cx, EDouble.fin cy⟩,
          EDouble.fin cz, EDouble.fin cz⟩) := by
  obtain ⟨⟨x1, y1, x2, y2⟩, z1, z2⟩ := b
  constructor
  · simp [QgsBox3D.scale, scale_one_bound]
  · intro h1 h2 h3 h4 h5 h6
    obtain ⟨a1, rfl⟩ := EDouble.exists_fin_of_ne_nan h1
    obtain ⟨a2, rfl⟩ := EDouble.exists_fin_of_ne_nan h2
    obtain ⟨a3, rfl⟩ := EDouble.exists_fin_of_ne_nan h3
    obtain ⟨a4, rfl⟩ := EDouble.exists_fin_of_ne_nan h4
    obtain ⟨a5, rfl⟩ := EDouble.exists_fin_of_ne_nan h5
    obtain ⟨a6, rfl⟩ := EDouble.exists_fin_of_ne_nan h6
    simp [QgsBox3D.scale, scale_zero_bound]

/-- C5 witness: scaling the finite box `(0, 1, 4, 2, 3, 5)` by 0 about
`(7, 8, 9)` collapses it to that centre. -/
theorem scale_one_and_zero_witness :
    QgsBox3D.scale ⟨⟨EDouble.fin 0, EDouble.fin 1, EDouble.fin 2, EDouble.fin 3⟩,
        EDouble.fin 4, EDouble.fin 5⟩
      (EDouble.fin 0) (EDouble.fin 7) (EDouble.fin 8) (EDouble.fin 9) =
      ⟨⟨EDouble.fin 7, EDouble.fin 8, EDouble.fin 7, EDouble.fin 8⟩,
        EDouble.fin 9, EDouble.fin 9⟩ :=
  (scale_one_and_zero ⟨⟨EDouble.fin 0, EDouble.fin 1, EDouble.fin 2, EDouble.fin 3⟩,
        EDouble.fin 4, EDouble.fin 5⟩ 7 8 9).2
    (by decide) (by decide) (by decide) (by decide) (by decide) (by decide)

lemma ternMax_fin (x y : ℚ) :
    (if egt (EDouble.fin x) (EDouble.fin y) then EDouble.fin x else EDouble.fin y) =
      EDouble.fin (max x y) := by
  by_cases h : y < x
  · simp [EDouble.egt, EDouble.elt, h, max_eq_left h.le]
  · simp [EDouble.egt, EDouble.elt, h, max_eq_right (le_of_not_lt h)]

lemma ternMin_fin (x y : ℚ) :
    (if elt (EDouble.fin x) (EDouble.fin y) then EDouble.fin x else EDouble.fin y) =
      EDouble.fin (min x y) := by
  by_cases h : x < y
  · simp [EDouble.elt, h, min_eq_left h.le]
  · simp [EDouble.elt, h, min_eq_right (le_of_not_lt h)]

lemma rect_intersects_comm (r s : QgsRect) :
    QgsRect.intersects r s = QgsRect.intersects s r := by
  unfold QgsRect.intersects
  rw [EDouble.smax_comm r.xmin s.xmin, EDouble.smin_comm r.xmax s.xmax,
      EDouble.smax_comm r.ymin s.ymin, EDouble.smin_comm r.ymax s.ymax]

lemma rect_intersect_comm (r s : QgsRect) :
    QgsRect.intersect r s = QgsRect.intersect s r := by
  unfold QgsRect.intersect
  rw [EDouble.smax_comm r.xmin s.xmin, EDouble.smax_comm r.ymin s.ymin,
      EDouble.smin_comm r.xmax s.xmax, EDouble.smin_comm r.ymax s.ymax]

lemma is2d_false_fins {b : QgsBox3D} (h : b.is2d = false) :
    (∃ x, b.zmin = EDouble.fin x) ∧ ∃ y, b.zmax = EDouble.fin y := by
  unfold QgsBox3D.is2d at h
  simp only [Bool.or_eq_false_iff] at h
  constructor
  · apply EDouble.exists_fin_of_ne_nan
    intro he
    rw [he] at h
    simp [EDouble.isNan] at h
  · apply EDouble.exists_fin_of_ne_nan
    intro he
    rw [he] at h
    simp [EDouble.isNan] at h

lemma intersects_symm (b o : QgsBox3D) :
    QgsBox3D.intersects b o = QgsBox3D.intersects o b := by
  unfold QgsBox3D.intersects
  rw [rect_intersects_comm]
  cases hr : QgsRect.intersects o.bounds2d b.bounds2d with
  | false => simp
  | true =>
    simp only [Bool.not_true, Bool.false_eq_true, if_false]
    rw [Bool.or_comm o.is2d b.is2d]
    cases h2 : b.is2d || o.is2d with
    | true => rfl
    | false =>
      simp only [Bool.false_eq_true, if_false]
      have hb2 : b.is2d = false := (Bool.or_eq_false_iff.1 h2).1
      have ho2 : o.is2d = false := (Bool.or_eq_false_iff.1 h2).2
      obtain ⟨⟨zb, hzb⟩, ⟨Zb, hZb⟩⟩ := is2d_false_fins hb2
      obtain ⟨⟨zo, hzo⟩, ⟨Zo, hZo⟩⟩ := is2d_false_fins ho2
      rw [hzb, hZb, hzo, hZo, ternMax_fin, ternMax_fin, ternMin_fin, ternMin_fin,
        max_comm zo zb, min_comm Zo Zb]

lemma intersect_symm (b o : QgsBox3D) (h1 : b.zmin ≠ EDouble.nan) (h2 : b.zmax ≠ EDouble.nan)
    (h3 : o.zmin ≠ EDouble.nan) (h4 : o.zmax ≠ EDouble.nan) :
    QgsBox3D.intersect b o = QgsBox3D.intersect o b := by
  obtain ⟨zb, hzb⟩ := EDouble.exists_fin_of_ne_nan h1
  obtain ⟨Zb, hZb⟩ := EDouble.exists_fin_of_ne_nan h2
  obtain ⟨zo, hzo⟩ := EDouble.exists_fin_of_ne_nan h3
  obtain ⟨Zo, hZo⟩ := EDouble.exists_fin_of_ne_nan h4
  unfold QgsBox3D.intersect QgsBox3D.mk6
  rw [rect_intersect_comm, hzb, hZb, hzo, hZo, EDouble.stdMax_fin, EDouble.stdMax_fin,
      EDouble.stdMin_fin, EDouble.stdMin_fin, max_comm zo zb, min_comm Zo Zb]

/-- C6 counterexample: for `A = (0, 0, NaN, 10, 10, 10)` and
`B = (0, 0, 5, 10, 10, 10)` the claim fails as stated:
`A.intersect(B).zmin` is NaN (`std::max(NaN, 5) = NaN`) while
`B.intersect(A).zmin` is 5 (`std::max(5, NaN) = 5`), so the two
intersection boxes do not have identical bounds. -/
theorem intersect_symm_counterexample :
    ¬ (QgsBox3D.intersects boxNanZmin boxFinite5 = QgsBox3D.intersects boxFinite5 boxNanZmin ∧
       QgsBox3D.intersect boxNanZmin boxFinite5 = QgsBox3D.intersect boxFinite5 boxNanZmin) := by
  intro h
  have hz : EDouble.stdMax EDouble.nan (EDouble.fin 5) = EDouble.stdMax (EDouble.fin 5) EDouble.nan :=
    congrArg QgsBox3D.zmin h.2
  simp [EDouble.stdMax, EDouble.elt] at hz

/-- C6 (amended): `intersects` is symmetric for all boxes, and the boxes
returned by `A.intersect(B)` and `B.intersect(A)` have identical bounds
whenever the z bounds of both operands are non-NaN. -/
theorem intersects_intersect_symm (a b : QgsBox3D) :
    QgsBox3D.intersects a b = QgsBox3D.intersects b a ∧
    (a.zmin ≠ EDouble.nan → a.zmax ≠ EDouble.nan → b.zmin ≠ EDouble.nan → b.zmax ≠ EDouble.nan →
      QgsBox3D.intersect a b = QgsBox3D.intersect b a) :=
  ⟨intersects_symm a b, fun h1 h2 h3 h4 => intersect_symm a b h1 h2 h3 h4⟩

/-- C6 witness: on the NaN-free boxes `(0, 0, 5, 10, 10, 10)` and
`(2, 3, 4, 6, 7, 8)` the intersection is symmetric. -/
theorem intersects_intersect_symm_witness :
    QgsBox3D.intersect boxFinite5
        (QgsBox3D.mk6 (EDouble.fin 2) (EDouble.fin 3) (EDouble.fin 4)
          (EDouble.fin 6) (EDouble.fin 7) (EDouble.fin 8)) =
      QgsBox3D.intersect
        (QgsBox3D.mk6 (EDouble.fin 2) (EDouble.fin 3) (EDouble.fin 4)
          (EDouble.fin 6) (EDouble.fin 7) (EDouble.fin 8)) boxFinite5 :=
  (intersects_intersect_symm boxFinite5
      (QgsBox3D.mk6 (EDouble.fin 2) (EDouble.fin 3) (EDouble.fin 4)
        (EDouble.fin 6) (EDouble.fin 7) (EDouble.fin 8))).2
    (by decide) (by decide) (by decide) (by decide)

lemma dGap_fin (lo hi c : ℚ) :
    QgsBox3D.dGap (EDouble.fin lo) (EDouble.fin hi) (EDouble.fin c) =
      EDouble.fin (specGap lo hi c) := by
  simp only [QgsBox3D.dGap, EDouble.esub, EDouble.stdMax_fin, specGap]
  rw [max_left_comm]

lemma specGap_eq_zero {lo hi c : ℚ} (h1 : lo ≤ c) (h2 : c ≤ hi) : specGap lo hi c = 0 := by
  unfold specGap
  rw [max_eq_left]
  exact max_le (by linarith) (by linarith)

lemma distanceTo_eq_fin {b : QgsBox3D} {p : Vec3} {q : ℚ} (h : b.distSumSq p = EDouble.fin q) :
    b.distanceTo p = some (Real.sqrt (q : ℝ)) := by
  unfold QgsBox3D.distanceTo
  rw [h]

lemma distSumSq_fin (xm ym zm xM yM zM px py pz : ℚ) :
    QgsBox3D.distSumSq
        (QgsBox3D.mk6 (EDouble.fin xm) (EDouble.fin ym) (EDouble.fin zm)
          (EDouble.fin xM) (EDouble.fin yM) (EDouble.fin zM))
        ⟨EDouble.fin px, EDouble.fin py, EDouble.fin pz⟩ =
      EDouble.fin (specGap xm xM px ^ 2 + specGap ym yM py ^ 2 +
        (if (QgsBox3D.mk6 (EDouble.fin xm) (EDouble.fin ym) (EDouble.fin zm)
              (EDouble.fin xM) (EDouble.fin yM) (EDouble.fin zM)).is2d then 0
         else specGap zm zM pz ^ 2)) := by
  cases h2 : (QgsBox3D.mk6 (EDouble.fin xm) (EDouble.fin ym) (EDouble.fin zm)
      (EDouble.fin xM) (EDouble.fin yM) (EDouble.fin zM)).is2d with
  | true =>
    simp only [QgsBox3D.mk6] at h2
    simp only [QgsBox3D.distSumSq, QgsBox3D.mk6, EDouble.isNan, Bool.or_false, h2, if_true,
      dGap_fin, EDouble.emul, EDouble.eadd, EDouble.fin.injEq]
    ring
  | false =>
    simp only [QgsBox3D.mk6] at h2
    simp only [QgsBox3D.distSumSq, QgsBox3D.mk6, EDouble.isNan, Bool.or_false, h2,
      Bool.false_eq_true, if_false, dGap_fin, EDouble.emul, EDouble.eadd, EDouble.fin.injEq]
    ring

lemma distSumSq_fin_nanZ (xm ym zm xM yM zM px py : ℚ) :
    QgsBox3D.distSumSq
        (QgsBox3D.mk6 (EDouble.fin xm) (EDouble.fin ym) (EDouble.fin zm)
          (EDouble.fin xM) (EDouble.fin yM) (EDouble.fin zM))
        ⟨EDouble.fin px, EDouble.fin py, EDouble.nan⟩ =
      EDouble.fin (specGap xm xM px ^ 2 + specGap ym yM py ^ 2) := by
  simp only [QgsBox3D.distSumSq, QgsBox3D.mk6, EDouble.isNan, Bool.or_true, if_true,
    dGap_fin, EDouble.emul, EDouble.eadd, EDouble.fin.injEq]
  ring

lemma box10_is2d : QgsBox3D.is2d box10 = false := by
  simp only [QgsBox3D.is2d, box10, QgsBox3D.mk6, qgsDoubleNear, EDouble.egt, EDouble.elt,
    EDouble.isNan, Bool.or_eq_false_iff, decide_eq_false_iff_not, not_and, not_lt]
  norm_num [qgsEpsilon]

/-- C3: `distanceTo` computes per axis the spec's gap
`max(0, max(lowerBound - coord, coord - upperBound))` and returns the
Euclidean norm of the gaps; the z gap is dropped exactly when the box is
2D-degenerate or the query z is NaN; the distance is 0 on points inside
the box; and on the box `(0,0,0,10,10,10)` the point `(15,5,5)` is at
distance 5 and the point `(15,15,15)` at distance `√75`. -/
theorem distanceTo_spec :
    (∀ xm ym zm xM yM zM px py pz : ℚ,
      QgsBox3D.distanceTo
          (QgsBox3D.mk6 (EDouble.fin xm) (EDouble.fin ym) (EDouble.fin zm)
            (EDouble.fin xM) (EDouble.fin yM) (EDouble.fin zM))
          ⟨EDouble.fin px, EDouble.fin py, EDouble.fin pz⟩ =
        some (Real.sqrt ((specGap xm xM px ^ 2 + specGap ym yM py ^ 2 +
          (if (QgsBox3D.mk6 (EDouble.fin xm) (EDouble.fin ym) (EDouble.fin zm)
                (EDouble.fin xM) (EDouble.fin yM) (EDouble.fin zM)).is2d then 0
           else specGap zm zM pz ^ 2) : ℚ) : ℝ))) ∧
    (∀ xm ym zm xM yM zM px py : ℚ,
      QgsBox3D.distanceTo
          (QgsBox3D.mk6 (EDouble.fin xm) (EDouble.fin ym) (EDouble.fin zm)
            (EDouble.fin xM) (EDouble.fin yM) (EDouble.fin zM))
          ⟨EDouble.fin px, EDouble.fin py, EDouble.nan⟩ =
        some (Real.sqrt ((specGap xm xM px ^ 2 + specGap ym yM py ^ 2 : ℚ) : ℝ))) ∧
    (∀ xm ym zm xM yM zM px py pz : ℚ, xm ≤ px → px ≤ xM → ym ≤ py → py ≤ yM →
      zm ≤ pz → pz ≤ zM →
      QgsBox3D.distanceTo
          (QgsBox3D.mk6 (EDouble.fin xm) (EDouble.fin ym) (EDouble.fin zm)
            (EDouble.fin xM) (EDouble.fin yM) (EDouble.fin zM))
          ⟨EDouble.fin px, EDouble.fin py, EDouble.fin pz⟩ = some 0) ∧
    QgsBox3D.distanceTo box10 ⟨EDouble.fin 15, EDouble.fin 5, EDouble.fin 5⟩ = some 5 ∧
    QgsBox3D.distanceTo box10 ⟨EDouble.fin 15, EDouble.fin 15, EDouble.fin 15⟩ =
      some (Real.sqrt 75) := by
  refine ⟨?_, ?_, ?_, ?_, ?_⟩
  · intro xm ym zm xM yM zM px py pz
    exact distanceTo_eq_fin (distSumSq_fin xm ym zm xM yM zM px py pz)
  · intro xm ym zm xM yM zM px py
    exact distanceTo_eq_fin (distSumSq_fin_nanZ xm ym zm xM yM zM px py)
  · intro xm ym zm xM yM zM px py pz h1 h2 h3 h4 h5 h6
    have e := distSumSq_fin xm ym zm xM yM zM px py pz
    rw [specGap_eq_zero h1 h2, specGap_eq_zero h3 h4, specGap_eq_zero h5 h6] at e
    simp only [ne_eq, OfNat.ofNat_ne_zero, not_false_eq_true, zero_pow, add_zero, zero_add,
      ite_self] at e
    rw [distanceTo_eq_fin e]
    simp
  · have e : QgsBox3D.distSumSq box10 ⟨EDouble.fin 15, EDouble.fin 5, EDouble.fin 5⟩ =
        EDouble.fin 25 := by
      have h := distSumSq_fin 0 0 0 10 10 10 15 5 5
      rw [show (QgsBox3D.mk6 (EDouble.fin 0) (EDouble.fin 0) (EDouble.fin 0)
            (EDouble.fin 10) (EDouble.fin 10) (EDouble.fin 10)) = box10 from rfl] at h
      rw [h, box10_is2d]
      norm_num [specGap, max_def]
    rw [distanceTo_eq_fin e, show ((25 : ℚ) : ℝ) = 5 ^ 2 by norm_num,
      Real.sqrt_sq (by norm_num : (0 : ℝ) ≤ 5)]
  · have e : QgsBox3D.distSumSq box10 ⟨EDouble.fin 15, EDouble.fin 15, EDouble.fin 15⟩ =
        EDouble.fin 75 := by
      have h := distSumSq_fin 0 0 0 10 10 10 15 15 15
      rw [show (QgsBox3D.mk6 (EDouble.fin 0) (EDouble.fin 0) (EDouble.fin 0)
            (EDouble.fin 10) (EDouble.fin 10) (EDouble.fin 10)) = box10 from rfl] at h
      rw [h, box10_is2d]
      norm_num [specGap, max_def]
    rw [distanceTo_eq_fin e, show ((75 : ℚ) : ℝ) = (75 : ℝ) by norm_num]

/-- C3 witness: the interior point `(1, 2, 3)` of the box
`(0, 0, 0, 10, 10, 10)` is at distance 0. -/
theorem distanceTo_spec_witness :
    QgsBox3D.distanceTo
        (QgsBox3D.mk6 (EDouble.fin 0) (EDouble.fin 0) (EDouble.fin 0)
          (EDouble.fin 10) (EDouble.fin 10) (EDouble.fin 10))
        ⟨EDouble.fin 1, EDouble.fin 2, EDouble.fin 3⟩ = some 0 :=
  distanceTo_spec.2.2.1 0 0 0 10 10 10 1 2 3 (by norm_num) (by norm_num) (by norm_num)
    (by norm_num) (by norm_num) (by norm_num)

lemma ite_gt20 (n : ℤ) : (if n > 20 then 20 else n) = min n 20 := by
  rcases le_or_lt n 20 with h | h
  · rw [if_neg (not_lt.2 h), min_eq_left h]
  · rw [if_pos h, min_eq_right h.le]

/-- C7: `toString` returns the literal `"Null"` when the box is null,
otherwise `"Empty"` when it is empty, otherwise the string
`"xmin,ymin,zmin : xmax,ymax,zmax"` with every bound rendered at the
precision used; for every negative precision argument the precision used is
the adaptive precision derived from the smaller of the box's width and
height, and it never exceeds 20 decimal digits. -/
theorem toString_spec (b : QgsBox3D) (p : ℤ) :
    (b.isNull = true → QgsBox3D.toString b p = "Null") ∧
    (b.isNull = false → b.isEmpty = true → QgsBox3D.toString b p = "Empty") ∧
    (b.isNull = false → b.isEmpty = false →
      QgsBox3D.toString b p =
        fmtFixedE b.bounds2d.xmin (QgsBox3D.usedPrecision b p).toNat ++ "," ++
        fmtFixedE b.bounds2d.ymin (QgsBox3D.usedPrecision b p).toNat ++ "," ++
        fmtFixedE b.zmin (QgsBox3D.usedPrecision b p).toNat ++ " : " ++
        fmtFixedE b.bounds2d.xmax (QgsBox3D.usedPrecision b p).toNat ++ "," ++
        fmtFixedE b.bounds2d.ymax (QgsBox3D.usedPrecision b p).toNat ++ "," ++
        fmtFixedE b.zmax (QgsBox3D.usedPrecision b p).toNat) ∧
    (p < 0 → QgsBox3D.usedPrecision b p = QgsBox3D.adaptivePrecision b ∧
      QgsBox3D.adaptivePrecision b ≤ 20) := by
  have key : QgsBox3D.toString b p =
      (if b.isNull then "Null" else if b.isEmpty then "Empty" else
        fmtFixedE b.bounds2d.xmin (QgsBox3D.usedPrecision b p).toNat ++ "," ++
        fmtFixedE b.bounds2d.ymin (QgsBox3D.usedPrecision b p).toNat ++ "," ++
        fmtFixedE b.zmin (QgsBox3D.usedPrecision b p).toNat ++ " : " ++
        fmtFixedE b.bounds2d.xmax (QgsBox3D.usedPrecision b p).toNat ++ "," ++
        fmtFixedE b.bounds2d.ymax (QgsBox3D.usedPrecision b p).toNat ++ "," ++
        fmtFixedE b.zmax (QgsBox3D.usedPrecision b p).toNat) := by
    unfold QgsBox3D.toString QgsBox3D.usedPrecision QgsBox3D.adaptivePrecision
    simp only [ite_gt20]
  refine ⟨?_, ?_, ?_, ?_⟩
  · intro h
    rw [key, if_pos h]
  · intro h h2
    rw [key, if_neg (by simp [h]), if_pos h2]
  · intro h h2
    rw [key, if_neg (by simp [h]), if_neg (by simp [h2])]
  · intro h
    constructor
    · unfold QgsBox3D.usedPrecision
      rw [if_pos h]
    · unfold QgsBox3D.adaptivePrecision
      split
      · exact min_le_right _ 20
      · norm_num

/-- C7 witness: on the null `setMinimal` box, `toString` returns the
literal `"Null"` for any precision. -/
theorem toString_spec_witness :
    QgsBox3D.toString QgsBox3D.setMinimal 2 = "Null" :=
  (toString_spec QgsBox3D.setMinimal 2).1
    (by simp [QgsBox3D.isNull, QgsBox3D.setMinimal, QgsRect.setMinimal, EDouble.eeq,
      EDouble.isNan])

/-- C8: tolerance-based box equality is reflexive exactly on NaN-free
boxes: when all six bounds are non-NaN, `A == A` returns true, while a NaN
`zmin` or `zmax` makes `A == A` return false, because the tolerance
comparison of NaN with itself fails. -/
theorem beq_refl_iff_noNaN (b : QgsBox3D) :
    ((b.bounds2d.xmin ≠ EDouble.nan ∧ b.bounds2d.ymin ≠ EDouble.nan ∧
      b.bounds2d.xmax ≠ EDouble.nan ∧ b.bounds2d.ymax ≠ EDouble.nan ∧
      b.zmin ≠ EDouble.nan ∧ b.zmax ≠ EDouble.nan) → QgsBox3D.beq b b = true) ∧
    ((b.zmin = EDouble.nan ∨ b.zmax = EDouble.nan) → QgsBox3D.beq b b = false) := by
  constructor
  · rintro ⟨h1, h2, h3, h4, h5, h6⟩
    obtain ⟨a1, e1⟩ := EDouble.exists_fin_of_ne_nan h1
    obtain ⟨a2, e2⟩ := EDouble.exists_fin_of_ne_nan h2
    obtain ⟨a3, e3⟩ := EDouble.exists_fin_of_ne_nan h3
    obtain ⟨a4, e4⟩ := EDouble.exists_fin_of_ne_nan h4
    obtain ⟨a5, e5⟩ := EDouble.exists_fin_of_ne_nan h5
    obtain ⟨a6, e6⟩ := EDouble.exists_fin_of_ne_nan h6
    simp [QgsBox3D.beq, QgsRect.rectEq, e1, e2, e3, e4, e5, e6, qgsDoubleNear_self_fin]
  · rintro (h | h) <;> simp [QgsBox3D.beq, h, qgsDoubleNear]

/-- C8 witness: the finite box `(1, 2, 3, 4, 5, 6)` equals itself, and the
box with a NaN `zmin` does not equal itself. -/
theorem beq_refl_iff_noNaN_witness :
    QgsBox3D.beq (QgsBox3D.mk6 (EDouble.fin 1) (EDouble.fin 2) (EDouble.fin 3)
        (EDouble.fin 4) (EDouble.fin 5) (EDouble.fin 6))
      (QgsBox3D.mk6 (EDouble.fin 1) (EDouble.fin 2) (EDouble.fin 3)
        (EDouble.fin 4) (EDouble.fin 5) (EDouble.fin 6)) = true ∧
    QgsBox3D.beq ⟨⟨EDouble.fin 0, EDouble.fin 0, EDouble.fin 1, EDouble.fin 1⟩,
        EDouble.nan, EDouble.fin 1⟩
      ⟨⟨EDouble.fin 0, EDouble.fin 0, EDouble.fin 1, EDouble.fin 1⟩,
        EDouble.nan, EDouble.fin 1⟩ = false :=
  ⟨(beq_refl_iff_noNaN (QgsBox3D.mk6 (EDouble.fin 1) (EDouble.fin 2) (EDouble.fin 3)
        (EDouble.fin 4) (EDouble.fin 5) (EDouble.fin 6))).1
      (by refine ⟨?_, ?_, ?_, ?_, ?_, ?_⟩ <;> decide),
   (beq_refl_iff_noNaN ⟨⟨EDouble.fin 0, EDouble.fin 0, EDouble.fin 1, EDouble.fin 1⟩,
        EDouble.nan, EDouble.fin 1⟩).2 (Or.inl rfl)⟩

/-- C10: the call `self.intersect(other)` is a pure query — its
state-passing rendering leaves both operands exactly as they were and
returns the intersection box. -/
theorem intersectRun_frame (a b : QgsBox3D) :
    (QgsBox3D.intersectRun a b).1 = a ∧ (QgsBox3D.intersectRun a b).2.1 = b ∧
    (QgsBox3D.intersectRun a b).2.2 = QgsBox3D.intersect a b :=
  ⟨rfl, rfl, rfl⟩
